import Mathlib

/-!
Shallow embedding of the heartbeat coalescing and dispatch engine of
`src/Eztracker.py` (a Sublime Text activity-tracker plugin).

Modelling conventions:
* Timestamps (`time.time()` values) and durations are integers `ℤ`.
  The engine only adds, subtracts, multiplies and compares times — it
  never divides — so the ordered-ring reasoning below is insensitive to
  the choice between `ℤ` and a denser number type.
* Python dicts are association lists with `List.lookup`; the per-file
  records stored in `state.last_heartbeat` are themselves association
  lists `List (String × ℤ)` so that the exact key strings of the source
  (including the misspelled default key) are preserved.
* The external world of `send_heartbeats` (whether the CLI path resolves,
  and the outcome of `subprocess.run`) is an explicit environment value.
* Side effects that matter to the spec (which heartbeat was emitted,
  whether the CLI was invoked and with which argument vector, which
  dialog was shown) are returned in result structures; `print` logging
  has no effect on state and is dropped.
-/

namespace Eztracker

/-- Exit code constant from line 11 of the source. -/
def EXIT_CODE_CONFIG_PARSE_ERROR : Int := 103

/-- Exit code constant from line 12 of the source. -/
def EXIT_CODE_API_KEY_ERROR : Int := 104

/-- Version constant from line 13 of the source. -/
def VERSION : String := "0.0.1"

/-- Plugin-name constant from line 15 of the source. -/
def PLUGIN_NAME : String := "eztracker-sublime"

/-- The fields of `EztrackerConfig` that the core engine reads
(`__init__`, lines 17-30).  `ignore_patterns` is a fixed default list
(never touched by `load`), kept as the global `ignore_patterns` below. -/
structure EztrackerConfig where
  api_key : String
  debug : Bool
  heartbeat_frequency : ℤ
  cli_path : String
  send_buffer_seconds : ℤ
deriving DecidableEq

/-- Default configuration values from `EztrackerConfig.__init__`. -/
def default_config : EztrackerConfig :=
  { api_key := ""
    debug := true
    heartbeat_frequency := 2
    cli_path := "eztracker_cli"
    send_buffer_seconds := 30 }

/-- The fixed `ignore_patterns` list (lines 25-30).  Each regex is of the
form `LITERAL$`, i.e. `re.search` matches exactly when the file name ends
with the literal. -/
def ignore_patterns : List String :=
  ["COMMIT_EDITMSG", "PULLREQ_EDITMSG", "MERGE_MSG", "TAG_EDITMSG"]

/-- Containment of `needle` as a contiguous substring of `hay`, on
character lists (the semantics of Python's `in` on strings). -/
def list_contains_sub (needle : List Char) : List Char → Bool
  | [] => needle = []
  | c :: cs => needle.isPrefixOf (c :: cs) || list_contains_sub needle cs

/-- Python's `str.endswith`, on character lists (kernel-computable
replacement for `String.endsWith`). -/
def str_ends_with (s suffix : String) : Bool :=
  suffix.toList.isSuffixOf s.toList

/-- Python's `str.startswith`, on character lists. -/
def str_starts_with (s pre : String) : Bool :=
  pre.toList.isPrefixOf s.toList

/-- ASCII lower-casing of one character, as `str.lower` does on the
language names occurring here. -/
def lower_char (c : Char) : Char :=
  if 'A' ≤ c ∧ c ≤ 'Z' then Char.ofNat (c.toNat + 32) else c

/-- Python's `str.lower` (ASCII range, which covers the language names
this code compares). -/
def str_lower (s : String) : String :=
  String.mk (s.toList.map lower_char)

/-- `is_ignored_file` (lines 101-107): empty names are ignored, then the
regex loop (each pattern is `LITERAL$`, i.e. a suffix test, see
`ignore_patterns`), then the literal rules of line 107. -/
def is_ignored_file (file : String) : Bool :=
  if file = "" then true
  else if ignore_patterns.any (fun p => str_ends_with file p) then true
  else str_starts_with file "term:"
    || list_contains_sub "MiniBufExplorer".toList file.toList
    || file = "--NO NAME--"

/-- The heartbeat dict built at lines 163-169.  `time` is kept numeric;
the source stores `str(now)` and parses it back with `float` when
serializing extra heartbeats. -/
structure Heartbeat where
  entity : String
  time : ℤ
  is_write : Bool
  duration : ℤ
  language : String
deriving DecidableEq

/-- A per-file record stored in `state.last_heartbeat`: a Python dict
from key strings to timestamps. -/
abbrev Entry := List (String × ℤ)

/-- `EztrackerState` (lines 77-83).  `config` is carried inside the state
as in the source; `last_heartbeat` is the per-file dict of dicts. -/
structure EztrackerState where
  initialized : Bool
  config : EztrackerConfig
  last_heartbeat : List (String × Entry)
  heartbeat_buffer : List Heartbeat
  last_sent : ℤ
deriving DecidableEq

/-- `EztrackerState.get_last_heartbeat` (lines 85-86).  Note the default
dict's first key is the misspelled `"last_activity_at:"` (stray colon),
exactly as in the source. -/
def EztrackerState.get_last_heartbeat (s : EztrackerState) (file : String) : Entry :=
  match s.last_heartbeat.lookup file with
  | some e => e
  | none => [("last_activity_at:", 0), ("last_heartbeat_at", 0)]

/-- Python dict assignment `d[k] = v`: the key becomes bound to `v`,
every other binding is kept. -/
def dict_insert (d : List (String × Entry)) (k : String) (v : Entry) :
    List (String × Entry) :=
  (k, v) :: d.filter (fun p => p.1 != k)

/-- `EztrackerState.set_last_heartbeat` (lines 88-93); note it writes the
correctly spelled key `"last_activity_at"` (no colon). -/
def EztrackerState.set_last_heartbeat (s : EztrackerState) (file : String)
    (last_activity_at last_heartbeat_at : ℤ) : EztrackerState :=
  { s with last_heartbeat :=
      (dict_insert s.last_heartbeat file
        [("last_activity_at", last_activity_at),
         ("last_heartbeat_at", last_heartbeat_at)]) }

/-- Reading `entry["last_heartbeat_at"]`.  Every entry the code ever
reads this key from (the default of `get_last_heartbeat` and every value
written by `set_last_heartbeat`) carries the key, so the `getD 0`
fallback is never exercised on reachable data. -/
def entry_lhb (e : Entry) : ℤ :=
  (e.lookup "last_heartbeat_at").getD 0

/-- The view as the engine sees it: `view.file_name()` and the result of
`get_file_language(view)` (language detection is out-of-scope glue). -/
structure View where
  file_name : Option String
  language : String
deriving DecidableEq

/-- Outcome of the `subprocess.run` call at line 224: a completed process
with a return code, or one of the exception classes caught at
lines 234-237. -/
inductive RunResult
  | ok (returncode : Int)
  | fileNotFound
  | otherFault
deriving DecidableEq

/-- External environment of `send_heartbeats`: whether
`os.path.isfile(cli_path) or shutil.which(cli_path)` holds (line 185) and
what `subprocess.run` does. -/
structure SendEnv where
  tool_resolvable : Bool
  run : RunResult
deriving DecidableEq

/-- The user-visible dialogs of `send_heartbeats` (lines 226, 229, 235, 237). -/
inductive Dialog
  | invalidApiKey
  | cliError
  | cliNotFound
  | runFault
deriving DecidableEq

/-- A JSON value occurring in the `--extra-heartbeats` array. -/
inductive JVal
  | s (v : String)
  | q (v : ℤ)
  | b (v : Bool)
deriving DecidableEq

/-- A token of the argument vector `cmd`.  `Tok.q v` stands for the
decimal rendering `str(v)` of the number `v`; `Tok.json a` stands for
`json.dumps` of the array `a` of objects (each object an ordered
key-value list). -/
inductive Tok
  | s (v : String)
  | q (v : ℤ)
  | json (v : List (List (String × JVal)))
deriving DecidableEq

/-- One element of the `--extra-heartbeats` JSON array (lines 213-220),
including the key choice `"language"` iff the language lowercases to
`"forth"`, else `"alternate_language"`. -/
def extra_json_obj (hb : Heartbeat) : List (String × JVal) :=
  [("entity", JVal.s hb.entity),
   ("timestamp", JVal.q hb.time),
   ("is_write", JVal.b hb.is_write),
   ("duration", JVal.q hb.duration),
   ((if str_lower hb.language = "forth" then "language" else "alternate_language"),
    JVal.s hb.language)]

/-- The argument vector built at lines 198-220.  The `--plugin` value is
the literal string of line 202 — the source has `"{PLUGIN_NAME}/{VERSION}"`
without an f-prefix, so the braces are not interpolated. -/
def build_cmd (cli : String) (heartbeat : Heartbeat)
    (extra_heartbeats : List Heartbeat) : List Tok :=
  [Tok.s cli,
   Tok.s "--entity", Tok.s heartbeat.entity,
   Tok.s "--time", Tok.q heartbeat.time,
   Tok.s "--plugin", Tok.s "{PLUGIN_NAME}/{VERSION}"]
  ++ (if heartbeat.duration ≠ 0 then [Tok.s "--duration", Tok.q heartbeat.duration] else [])
  ++ (if heartbeat.is_write then [Tok.s "--write"] else [])
  ++ (if heartbeat.language ≠ "" then
        [Tok.s (if str_lower heartbeat.language = "forth" then "--language"
                else "--alternate-language"),
         Tok.s heartbeat.language]
      else [])
  ++ (if extra_heartbeats ≠ [] then
        [Tok.s "--extra-heartbeats",
         Tok.json (extra_heartbeats.map extra_json_obj)]
      else [])

/-- Result of one call to `send_heartbeats`: the new state, the argument
vector iff `subprocess.run` was invoked, and the dialog shown if any. -/
structure SendResult where
  state : EztrackerState
  invoked : Option (List Tok)
  dialog : Option Dialog
deriving DecidableEq

/-- `send_heartbeats` (lines 180-239).  `now` models the `time.time()`
calls at lines 182 and 239.  Control flow, in source order: empty buffer
(lines 181-183, resets `last_sent`); unresolvable tool (lines 185-187,
clears the buffer, does NOT touch `last_sent`); pop the primary and clear
the buffer (lines 190-192); zero-duration primary (lines 194-196, does
NOT touch `last_sent`); build `cmd`, run it, classify (lines 198-237);
finally `last_sent = time.time()` (line 239, reached after every
`subprocess.run` outcome since the `try` catches all exceptions). -/
def send_heartbeats (env : SendEnv) (now : ℤ) (s : EztrackerState) : SendResult :=
  match s.heartbeat_buffer with
  | [] => ⟨{ s with last_sent := now }, none, none⟩
  | heartbeat :: extra_heartbeats =>
    if !env.tool_resolvable then
      ⟨{ s with heartbeat_buffer := [] }, none, none⟩
    else
      let s1 := { s with heartbeat_buffer := [] }
      if heartbeat.duration = 0 then
        ⟨s1, none, none⟩
      else
        let cmd := build_cmd s.config.cli_path heartbeat extra_heartbeats
        match env.run with
        | RunResult.ok rc =>
          if rc = EXIT_CODE_API_KEY_ERROR then
            ⟨{ s1 with initialized := false, last_sent := now }, some cmd,
             some Dialog.invalidApiKey⟩
          else if rc = EXIT_CODE_CONFIG_PARSE_ERROR then
            ⟨{ s1 with last_sent := now }, some cmd, some Dialog.cliError⟩
          else
            ⟨{ s1 with last_sent := now }, some cmd, none⟩
        | RunResult.fileNotFound =>
          ⟨{ s1 with last_sent := now }, some cmd, some Dialog.cliNotFound⟩
        | RunResult.otherFault =>
          ⟨{ s1 with last_sent := now }, some cmd, some Dialog.runFault⟩

/-- Result of one call to `append_heartbeat`: the new state, the emitted
heartbeat if the policy fired, and the flush result if the scheduler
triggered one. -/
structure AppendResult where
  state : EztrackerState
  emitted : Option Heartbeat
  flush : Option SendResult
deriving DecidableEq

/-- `append_heartbeat` (lines 146-178), with the broken debug print of
lines 158-159 elided: that statement (had it been written as the intended
`if state.config.debug: print(...)`) has no effect on state.  Its actual
faulty control flow is modelled separately by `append_heartbeat_raw`.
Line numbers: guard 147-150; policy computation 152-162; emission
163-172; the `isinstance` repair of 175-176 is a no-op here because
`last_sent` is numeric by construction; scheduler trigger 177-178. -/
def append_heartbeat (env : SendEnv) (now : ℤ) (view : View) (is_write : Bool)
    (s : EztrackerState) : AppendResult :=
  match view.file_name with
  | none => ⟨s, none, none⟩
  | some file =>
    if is_ignored_file file then ⟨s, none, none⟩
    else
      let last := s.get_last_heartbeat file
      let enough_time_passed : Bool :=
        decide (now - entry_lhb last > s.config.heartbeat_frequency * 60)
      let known : Bool := (s.last_heartbeat.lookup file).isSome
      let emit : Bool := is_write || enough_time_passed || !known
      let duration : ℤ := if known then now - entry_lhb last else 0
      let heartbeat : Heartbeat := ⟨file, now, is_write, duration, view.language⟩
      let s1 :=
        if emit then
          ({ s with heartbeat_buffer :=
              s.heartbeat_buffer ++ [heartbeat] }).set_last_heartbeat file now now
        else s
      if now - s1.last_sent > s1.config.send_buffer_seconds ∧ s1.heartbeat_buffer ≠ [] then
        let r := send_heartbeats env now s1
        ⟨r.state, if emit then some heartbeat else none, some r⟩
      else
        ⟨s1, if emit then some heartbeat else none, none⟩

/-- The Python exception raised on the faulty path. -/
inductive PyErr
  | attributeError
deriving DecidableEq

/-- Faithful control-flow model of `append_heartbeat` up to line 158.
After the guard of lines 147-150 and the computations of lines 152-157,
line 158 reads `state.debug` — but `EztrackerState` defines no `debug`
attribute (the flag lives at `state.config.debug`), so CPython raises
`AttributeError` here on every non-ignored call.  (As literally written
the line even lacks its colon, a `SyntaxError` that prevents the module
from importing at all; the model charitably assumes the colon.) -/
def append_heartbeat_raw (now : ℤ) (view : View) (s : EztrackerState) :
    Except PyErr EztrackerState :=
  match view.file_name with
  | none => Except.ok s
  | some file =>
    if is_ignored_file file then Except.ok s
    else
      let last := s.get_last_heartbeat file
      let _enough_time_passed : Bool :=
        decide (now - entry_lhb last > s.config.heartbeat_frequency * 60)
      Except.error PyErr.attributeError

/-- The editor events the `EztrackerListener` dispatches on
(lines 250-269); `on_init` re-initialization is modelled separately. -/
inductive Event
  | load (v : View)
  | activated (v : View)
  | modified (v : View)
  | text_command (v : View) (command_name : String)
deriving DecidableEq

/-- The `EztrackerListener` event handlers (lines 250-269).  `on_load`
and `on_activated` forward to `append_heartbeat` with `is_write = False`
when initialized; `on_modified` performs the activity-only record of
lines 258-265; `on_text_command` forwards with `is_write = True` when
initialized and the command is `"save"`. -/
def handle_event (env : SendEnv) (now : ℤ) (e : Event) (s : EztrackerState) :
    AppendResult :=
  match e with
  | Event.load v =>
    if s.initialized then append_heartbeat env now v false s else ⟨s, none, none⟩
  | Event.activated v =>
    if s.initialized then append_heartbeat env now v false s else ⟨s, none, none⟩
  | Event.modified v =>
    if s.initialized then
      match v.file_name with
      | some file =>
        if !is_ignored_file file then
          let last := s.get_last_heartbeat file
          ⟨s.set_last_heartbeat file now (entry_lhb last), none, none⟩
        else ⟨s, none, none⟩
      | none => ⟨s, none, none⟩
    else ⟨s, none, none⟩
  | Event.text_command v command_name =>
    if s.initialized ∧ command_name = "save" then
      append_heartbeat env now v true s
    else ⟨s, none, none⟩

/-- The module-level `state = EztrackerState()` of line 95: fresh state
at module load time `t0` (`last_sent = time.time()` at line 83). -/
def init_state (t0 : ℤ) : EztrackerState :=
  { initialized := false
    config := default_config
    last_heartbeat := []
    heartbeat_buffer := []
    last_sent := t0 }

/-- The state right after a successful `on_init` / `config.load()`
(lines 242-246): same as fresh, but `initialized = True`. -/
def ready_state (t0 : ℤ) : EztrackerState :=
  { init_state t0 with initialized := true }

/-- Run a list of non-write activity events (open/activate) on one view
through `append_heartbeat`, counting how many heartbeats were emitted. -/
def run_activity (env : SendEnv) (v : View) : List ℤ → EztrackerState → EztrackerState × ℕ
  | [], s => (s, 0)
  | t :: ts, s =>
    let r := append_heartbeat env t v false s
    let rest := run_activity env v ts r.state
    (rest.1, (if r.emitted.isSome then 1 else 0) + rest.2)

/-- A delivery environment where the CLI resolves and exits 0. -/
def env_ok : SendEnv := ⟨true, RunResult.ok 0⟩

/-- A delivery environment where the CLI path does not resolve. -/
def env_no_tool : SendEnv := ⟨false, RunResult.ok 0⟩

/-- A delivery environment where the CLI exits with the API-key-error code. -/
def env_api_key_error : SendEnv := ⟨true, RunResult.ok EXIT_CODE_API_KEY_ERROR⟩

/-- A plain non-ignored view. -/
def view_py : View := ⟨some "a.py", "python"⟩

end Eztracker

namespace Eztracker

/-! ### Helper lemmas shared by the claim theorems -/

theorem lookup_dict_insert_self (d : List (String × Entry)) (k : String) (v : Entry) :
    (dict_insert d k v).lookup k = some v := by
  simp [dict_insert, List.lookup]

theorem lookup_pair_la (a h : ℤ) :
    (([("last_activity_at", a), ("last_heartbeat_at", h)] : Entry).lookup
      "last_activity_at") = some a := rfl

theorem lookup_pair_lh (a h : ℤ) :
    (([("last_activity_at", a), ("last_heartbeat_at", h)] : Entry).lookup
      "last_heartbeat_at") = some h := rfl

theorem send_heartbeats_lh (env : SendEnv) (now : ℤ) (s : EztrackerState) :
    (send_heartbeats env now s).state.last_heartbeat = s.last_heartbeat := by
  unfold send_heartbeats
  rcases hb : s.heartbeat_buffer with _ | ⟨x, tl⟩
  · rfl
  · cases htr : env.tool_resolvable
    · rfl
    · by_cases hd : x.duration = 0
      · simp [hd]
      · cases hr : env.run with
        | ok rc =>
          simp only [hd, if_false]
          by_cases h1 : rc = EXIT_CODE_API_KEY_ERROR
          · rw [if_pos h1]
            rfl
          · rw [if_neg h1]
            by_cases h2 : rc = EXIT_CODE_CONFIG_PARSE_ERROR
            · rw [if_pos h2]
              rfl
            · rw [if_neg h2]
              rfl
        | fileNotFound => simp [hd]
        | otherFault => simp [hd]

theorem send_heartbeats_config (env : SendEnv) (now : ℤ) (s : EztrackerState) :
    (send_heartbeats env now s).state.config = s.config := by
  unfold send_heartbeats
  rcases hb : s.heartbeat_buffer with _ | ⟨x, tl⟩
  · rfl
  · cases htr : env.tool_resolvable
    · rfl
    · by_cases hd : x.duration = 0
      · simp [hd]
      · cases hr : env.run with
        | ok rc =>
          simp only [hd, if_false]
          by_cases h1 : rc = EXIT_CODE_API_KEY_ERROR
          · rw [if_pos h1]
            rfl
          · rw [if_neg h1]
            by_cases h2 : rc = EXIT_CODE_CONFIG_PARSE_ERROR
            · rw [if_pos h2]
              rfl
            · rw [if_neg h2]
              rfl
        | fileNotFound => simp [hd]
        | otherFault => simp [hd]

theorem handle_event_uninit (env : SendEnv) (now : ℤ) (e : Event) (s : EztrackerState)
    (h : s.initialized = false) :
    (handle_event env now e s).state = s ∧ (handle_event env now e s).emitted = none := by
  cases e <;> simp [handle_event, h]

/-- What `append_heartbeat` emits, as a function of the pre-state: the
policy disjunction of line 160 decides, and the duration is the line-162
conditional expression. -/
theorem append_heartbeat_emitted (env : SendEnv) (now : ℤ) (view : View) (w : Bool)
    (s : EztrackerState) (file : String) (hf : view.file_name = some file)
    (hig : is_ignored_file file = false) :
    (append_heartbeat env now view w s).emitted =
      (if (w || decide (now - entry_lhb (s.get_last_heartbeat file) >
              s.config.heartbeat_frequency * 60)
            || !(s.last_heartbeat.lookup file).isSome) = true
       then some ⟨file, now, w,
          (if (s.last_heartbeat.lookup file).isSome = true
           then now - entry_lhb (s.get_last_heartbeat file) else 0), view.language⟩
       else none) := by
  unfold append_heartbeat
  rw [hf]
  simp only [hig, Bool.false_eq_true, if_false]
  rw [apply_ite AppendResult.emitted, ite_self]

/-- The state effect of a non-emitting `append_heartbeat` call on the
activity map and config: none (the scheduler may still flush, which
touches neither). -/
theorem append_heartbeat_no_emit (env : SendEnv) (now : ℤ) (view : View) (w : Bool)
    (s : EztrackerState) (file : String) (hf : view.file_name = some file)
    (hig : is_ignored_file file = false)
    (hemit : (w || decide (now - entry_lhb (s.get_last_heartbeat file) >
        s.config.heartbeat_frequency * 60)
      || !(s.last_heartbeat.lookup file).isSome) = false) :
    (append_heartbeat env now view w s).emitted = none ∧
    (append_heartbeat env now view w s).state.last_heartbeat = s.last_heartbeat ∧
    (append_heartbeat env now view w s).state.config = s.config := by
  unfold append_heartbeat
  rw [hf]
  simp only [hig, Bool.false_eq_true, if_false]
  simp only [hemit, Bool.false_eq_true, if_false]
  refine ⟨?_, ?_, ?_⟩
  · rw [apply_ite AppendResult.emitted, ite_self]
  · rw [apply_ite AppendResult.state, apply_ite EztrackerState.last_heartbeat,
      send_heartbeats_lh, ite_self]
  · rw [apply_ite AppendResult.state, apply_ite EztrackerState.config,
      send_heartbeats_config, ite_self]

/-- The state effect of an emitting `append_heartbeat` call on the
activity map and config: both per-file timestamps become `now`
(line 171), config untouched. -/
theorem append_heartbeat_emit (env : SendEnv) (now : ℤ) (view : View) (w : Bool)
    (s : EztrackerState) (file : String) (hf : view.file_name = some file)
    (hig : is_ignored_file file = false)
    (hemit : (w || decide (now - entry_lhb (s.get_last_heartbeat file) >
        s.config.heartbeat_frequency * 60)
      || !(s.last_heartbeat.lookup file).isSome) = true) :
    (append_heartbeat env now view w s).emitted.isSome = true ∧
    (append_heartbeat env now view w s).state.last_heartbeat =
      dict_insert s.last_heartbeat file
        [("last_activity_at", now), ("last_heartbeat_at", now)] ∧
    (append_heartbeat env now view w s).state.config = s.config := by
  unfold append_heartbeat
  rw [hf]
  simp only [hig, Bool.false_eq_true, if_false]
  simp only [hemit, if_true]
  refine ⟨?_, ?_, ?_⟩
  · rw [apply_ite AppendResult.emitted, ite_self]
    rfl
  · rw [apply_ite AppendResult.state, apply_ite EztrackerState.last_heartbeat,
      send_heartbeats_lh, ite_self]
    rfl
  · rw [apply_ite AppendResult.state, apply_ite EztrackerState.config,
      send_heartbeats_config, ite_self]
    rfl

end Eztracker

namespace Eztracker

/-- Running further non-write activity events on a file that already has
a record keeps the record, the config and the emission count unchanged,
as long as every event time is within the debounce interval of the
recorded `last_heartbeat_at`. -/
theorem run_activity_no_emit (env : SendEnv) (v : View) (file : String) (e : Entry)
    (cfg : EztrackerConfig) (ts : List ℤ) :
    ∀ s : EztrackerState, v.file_name = some file → is_ignored_file file = false →
      s.last_heartbeat.lookup file = some e → s.config = cfg →
      (∀ t ∈ ts, ¬(t - entry_lhb e > cfg.heartbeat_frequency * 60)) →
      (run_activity env v ts s).2 = 0 ∧
      (run_activity env v ts s).1.last_heartbeat.lookup file = some e ∧
      (run_activity env v ts s).1.config = cfg := by
  induction ts with
  | nil =>
    intro s _ _ hl hc _
    exact ⟨rfl, hl, hc⟩
  | cons t ts ih =>
    intro s hf hig hl hc hts
    have hget : s.get_last_heartbeat file = e := by
      unfold EztrackerState.get_last_heartbeat
      rw [hl]
    have hknown : (s.last_heartbeat.lookup file).isSome = true := by
      rw [hl]
      rfl
    have henough : decide (t - entry_lhb (s.get_last_heartbeat file) >
        s.config.heartbeat_frequency * 60) = false := by
      rw [hget, hc, decide_eq_false_iff_not]
      exact hts t (List.mem_cons_self t ts)
    have hemit : ((false : Bool) || decide (t - entry_lhb (s.get_last_heartbeat file) >
        s.config.heartbeat_frequency * 60)
        || !(s.last_heartbeat.lookup file).isSome) = false := by
      rw [henough, hknown]
      rfl
    obtain ⟨he, hlh, hcf⟩ := append_heartbeat_no_emit env t v false s file hf hig hemit
    have hrest := ih (append_heartbeat env t v false s).state hf hig
      (by rw [hlh]; exact hl) (by rw [hcf]; exact hc)
      (fun u hu => hts u (List.mem_cons_of_mem t hu))
    simp only [run_activity, he]
    simpa using hrest

end Eztracker

namespace Eztracker

/-! ### Claim theorems -/

/-- C1: the claim says every event on a non-empty, non-ignored file is
handled without raising.  The code contradicts it: line 158 reads
`state.debug`, an attribute `EztrackerState` does not define (the flag
is `state.config.debug`), so the event path raises `AttributeError` on
every such event — here evaluated at the file "a.py" at time 100 on a
fresh initialized session.  (As literally written, line 158 even lacks
its colon, a `SyntaxError`.) -/
theorem C1_event_path_raises :
    is_ignored_file "a.py" = false ∧
    append_heartbeat_raw 100 view_py (ready_state 0) =
      Except.error PyErr.attributeError := by
  exact ⟨rfl, rfl⟩

/-- C10: the claim says the clock lookup returns
`(lastActivityAt, lastHeartbeatAt) = (0, 0)` for an unseen entity.  The
code's default dict misspells the activity key as `"last_activity_at:"`
(stray colon, line 86), so the correctly-spelled `last_activity_at`
field is absent (reading it would raise `KeyError`) while
`last_heartbeat_at` is indeed 0 and the misspelled key holds 0. -/
theorem C10_unseen_default_bug :
    ((init_state 0).get_last_heartbeat "notes.txt").lookup "last_activity_at" = none ∧
    ((init_state 0).get_last_heartbeat "notes.txt").lookup "last_heartbeat_at" = some 0 ∧
    ((init_state 0).get_last_heartbeat "notes.txt").lookup "last_activity_at:" = some 0 := by
  exact ⟨rfl, rfl, rfl⟩

/-- C7: the claim says `--plugin` is set to the plugin name and version
joined as name/version.  The code builds everything else as claimed
(`--entity`, `--time`, `--duration` iff nonzero, `--write` iff the write
flag, `--language` iff the language lowercases to "forth" else
`--alternate-language`, `--extra-heartbeats` iff secondaries exist, with
the parallel JSON key rule), but line 202 passes the literal string
"{PLUGIN_NAME}/{VERSION}" — the f-prefix is missing — instead of
"eztracker-sublime/0.0.1". -/
theorem C7_cmd_plugin_bug :
    build_cmd "eztracker_cli" ⟨"a.py", 100, true, 5, "python"⟩
        [⟨"b.go", 101, false, 7, "Forth"⟩] =
      [Tok.s "eztracker_cli", Tok.s "--entity", Tok.s "a.py", Tok.s "--time", Tok.q 100,
       Tok.s "--plugin", Tok.s "{PLUGIN_NAME}/{VERSION}",
       Tok.s "--duration", Tok.q 5, Tok.s "--write",
       Tok.s "--alternate-language", Tok.s "python",
       Tok.s "--extra-heartbeats",
       Tok.json [[("entity", JVal.s "b.go"), ("timestamp", JVal.q 101),
                  ("is_write", JVal.b false), ("duration", JVal.q 7),
                  ("language", JVal.s "Forth")]]] ∧
    PLUGIN_NAME ++ "/" ++ VERSION = "eztracker-sublime/0.0.1" ∧
    "{PLUGIN_NAME}/{VERSION}" ≠ PLUGIN_NAME ++ "/" ++ VERSION := by
  refine ⟨by decide, by decide, by decide⟩

/-- C5: if the first (primary) drained heartbeat has `duration = 0`, the
delivery tool is not invoked, the buffer ends empty, and the secondary
heartbeats are discarded with the primary — in both the tool-resolvable
case (early return at line 196 after the drain of lines 190-192) and the
tool-unresolvable case (buffer cleared at line 186). -/
theorem C5_zero_duration_primary (env : SendEnv) (now : ℤ) (s : EztrackerState)
    (hb : Heartbeat) (rest : List Heartbeat)
    (hbuf : s.heartbeat_buffer = hb :: rest) (hdur : hb.duration = 0) :
    (send_heartbeats env now s).invoked = none ∧
    (send_heartbeats env now s).state.heartbeat_buffer = [] := by
  unfold send_heartbeats
  rw [hbuf]
  cases env.tool_resolvable
  · exact ⟨rfl, rfl⟩
  · simp [hdur]

/-- Witness for C5 at a concrete state: buffer holding a zero-duration
primary and one nonzero secondary, resolvable tool. -/
theorem C5_zero_duration_primary_witness :
    (send_heartbeats env_ok 100
        { ready_state 0 with heartbeat_buffer :=
            [⟨"a.py", 10, false, 0, "python"⟩, ⟨"b.go", 11, false, 3, "go"⟩] }).invoked
      = none ∧
    (send_heartbeats env_ok 100
        { ready_state 0 with heartbeat_buffer :=
            [⟨"a.py", 10, false, 0, "python"⟩, ⟨"b.go", 11, false, 3, "go"⟩] }).state.heartbeat_buffer
      = [] :=
  C5_zero_duration_primary env_ok 100
    { ready_state 0 with heartbeat_buffer :=
        [⟨"a.py", 10, false, 0, "python"⟩, ⟨"b.go", 11, false, 3, "go"⟩] }
    ⟨"a.py", 10, false, 0, "python"⟩ [⟨"b.go", 11, false, 3, "go"⟩] rfl rfl

/-- C2 (amended): after a flush cycle, `lastFlushAt` (`last_sent`) is
`now` only when the routine was entered with an empty buffer (line 182)
or when the invocation stage was reached, i.e. the tool resolved and the
primary's duration was nonzero (line 239, reached after every
`subprocess.run` outcome).  When the tool is unresolvable (line 187) or
the primary's duration is zero (line 196) the timer is left unchanged —
contrary to the original claim's "regardless of outcome". -/
theorem C2_flush_timer_reset (env : SendEnv) (now : ℤ) (s : EztrackerState) :
    (send_heartbeats env now s).state.last_sent =
      (match s.heartbeat_buffer with
       | [] => now
       | hb :: _ =>
         if env.tool_resolvable = false then s.last_sent
         else if hb.duration = 0 then s.last_sent
         else now) := by
  unfold send_heartbeats
  rcases hbuf : s.heartbeat_buffer with _ | ⟨x, tl⟩
  · rfl
  · cases htr : env.tool_resolvable
    · rfl
    · by_cases hd : x.duration = 0
      · simp [hd]
      · cases hr : env.run with
        | ok rc =>
          simp only [hd, if_false]
          by_cases h1 : rc = EXIT_CODE_API_KEY_ERROR
          · rw [if_pos h1]
            simp [hd]
          · rw [if_neg h1]
            by_cases h2 : rc = EXIT_CODE_CONFIG_PARSE_ERROR
            · rw [if_pos h2]
              simp [hd]
            · rw [if_neg h2]
              simp [hd]
        | fileNotFound => simp [hd]
        | otherFault => simp [hd]

/-- C2 counterexample: the original claim says the timer is reset
whenever the trigger fires, in every case.  Concretely: a save at
t = 40 on a fresh session (import at t = 1000) buffers one zero-duration
heartbeat without flushing; an activation at t = 1050 fires the trigger
(1050 − 1000 > 30, buffer non-empty) and runs the flush, but the flush
hits the zero-duration-primary early return, so `last_sent` stays 1000
instead of becoming 1050. -/
theorem C2_counterexample :
    (append_heartbeat env_ok 1050 view_py false
        (append_heartbeat env_ok 40 view_py true (ready_state 1000)).state).flush.isSome
      = true ∧
    ((1050 : ℤ) - 1000 > (30 : ℤ)) ∧
    (append_heartbeat env_ok 1050 view_py false
        (append_heartbeat env_ok 40 view_py true (ready_state 1000)).state).state.last_sent
      = 1000 ∧
    (1000 : ℤ) ≠ 1050 := by
  refine ⟨by decide, by decide, by decide, by decide⟩

end Eztracker

namespace Eztracker

/-- C4 (amended): on a non-empty, non-ignored file, a heartbeat is
emitted iff the event is a write, or the time since the recorded
`last_heartbeat_at` exceeds the debounce interval, or the entity has no
record at all.  The amendment: an activity-only (modify) record does
count as a record (line 160 tests `file not in state.last_heartbeat`),
so "never heartbeat-recorded" in the original claim is wrong for
entities whose only record came from a modify event. -/
theorem C4_emission_policy_amended (env : SendEnv) (now : ℤ) (view : View) (w : Bool)
    (s : EztrackerState) (file : String) (hf : view.file_name = some file)
    (hig : is_ignored_file file = false) :
    ((append_heartbeat env now view w s).emitted).isSome = true ↔
      (w = true ∨
       now - entry_lhb (s.get_last_heartbeat file) > s.config.heartbeat_frequency * 60 ∨
       s.last_heartbeat.lookup file = none) := by
  rw [append_heartbeat_emitted env now view w s file hf hig]
  rcases hlk : s.last_heartbeat.lookup file with _ | e <;>
    cases w <;>
      by_cases hd : now - entry_lhb (s.get_last_heartbeat file) >
          s.config.heartbeat_frequency * 60 <;>
        simp [hlk, hd]

/-- Witness for C4 at a concrete input: a write on a fresh session. -/
theorem C4_emission_policy_witness :
    ((append_heartbeat env_ok 200 view_py true (ready_state 0)).emitted).isSome = true ↔
      (true = true ∨
       200 - entry_lhb ((ready_state 0).get_last_heartbeat "a.py") >
         (ready_state 0).config.heartbeat_frequency * 60 ∨
       (ready_state 0).last_heartbeat.lookup "a.py" = none) :=
  C4_emission_policy_amended env_ok 200 view_py true (ready_state 0) "a.py" rfl rfl

/-- C4 counterexample: the original claim requires emission whenever the
entity was never heartbeat-recorded.  Concretely: a modify of "a.py" at
t = 10 creates an activity-only record (and emits nothing), then a
non-write event at t = 50 emits nothing either — although the entity has
never been heartbeat-recorded, it is not a write, and the elapsed time
(50 − 0) does not exceed the 120-second debounce interval. -/
theorem C4_counterexample :
    (handle_event env_ok 10 (Event.modified view_py) (ready_state 1000)).emitted = none ∧
    (append_heartbeat env_ok 50 view_py false
        (handle_event env_ok 10 (Event.modified view_py) (ready_state 1000)).state).emitted
      = none ∧
    ¬((50 : ℤ) - 0 > default_config.heartbeat_frequency * 60) := by
  refine ⟨by decide, by decide, by decide⟩

/-- C3 (amended): the duration of an emitted heartbeat is
`eventTime - lastHeartbeatAt` whenever the entity has any record
(heartbeat or activity-only), and 0 only when no record exists at all.
The amendment: for an entity whose first heartbeat was preceded by a
modify event, the duration is not 0 but `eventTime - 0 = eventTime`
(line 162 tests `file in state.last_heartbeat`, which a modify record
satisfies). -/
theorem C3_duration_amended (env : SendEnv) (now : ℤ) (view : View) (w : Bool)
    (s : EztrackerState) (file : String) (hb : Heartbeat)
    (hf : view.file_name = some file) (hig : is_ignored_file file = false)
    (hemit : (append_heartbeat env now view w s).emitted = some hb) :
    hb.duration = (if s.last_heartbeat.lookup file = none then 0
                   else now - entry_lhb (s.get_last_heartbeat file)) := by
  rw [append_heartbeat_emitted env now view w s file hf hig] at hemit
  by_cases hc : (w || decide (now - entry_lhb (s.get_last_heartbeat file) >
      s.config.heartbeat_frequency * 60)
    || !(s.last_heartbeat.lookup file).isSome) = true
  · rw [if_pos hc] at hemit
    obtain rfl := (Option.some.injEq _ _).mp hemit.symm
    rcases hlk : s.last_heartbeat.lookup file with _ | e <;> simp [hlk]
  · rw [if_neg hc] at hemit
    exact absurd hemit (by simp)

/-- Witness for C3 at a concrete input: first-ever heartbeat for a file
with no record at all, whose duration is 0. -/
theorem C3_duration_witness :
    (⟨"a.py", 100, true, 0, "python"⟩ : Heartbeat).duration =
      (if (ready_state 0).last_heartbeat.lookup "a.py" = none then 0
       else 100 - entry_lhb ((ready_state 0).get_last_heartbeat "a.py")) :=
  C3_duration_amended env_ok 100 view_py true (ready_state 0) "a.py"
    ⟨"a.py", 100, true, 0, "python"⟩ rfl rfl (by decide)

/-- C3 counterexample: the original claim says the first-ever heartbeat
of an entity has duration 0 even when a modify preceded it.  Concretely:
modify "a.py" at t = 10 (emits nothing, creates a record with
`last_heartbeat_at = 0`), then save at t = 50: the first-ever heartbeat
for "a.py" carries duration 50, not 0. -/
theorem C3_counterexample :
    (handle_event env_ok 10 (Event.modified view_py) (ready_state 1000)).emitted = none ∧
    (append_heartbeat env_ok 50 view_py true
        (handle_event env_ok 10 (Event.modified view_py) (ready_state 1000)).state).emitted
      = some ⟨"a.py", 50, true, 50, "python"⟩ ∧
    (50 : ℤ) ≠ 0 := by
  refine ⟨by decide, by decide, by decide⟩

/-- C6 (amended): for a sequence of non-write activity events on a single
previously-unseen file, exactly one heartbeat (the first) is emitted
provided every later event lies within the debounce interval of the
FIRST event.  The amendment: the original claim's hypothesis "all gaps
≤ debounce interval" is not enough, because the debounce clock is not
reset by suppressed events — elapsed time is measured from the last
emitted heartbeat (line 155), so a chain of small gaps can still exceed
the interval. -/
theorem C6_single_heartbeat_amended (env : SendEnv) (v : View) (file : String)
    (t0 : ℤ) (rest : List ℤ) (s : EztrackerState)
    (hf : v.file_name = some file) (hig : is_ignored_file file = false)
    (hnew : s.last_heartbeat.lookup file = none)
    (hgaps : ∀ t ∈ rest, t - t0 ≤ s.config.heartbeat_frequency * 60) :
    (run_activity env v (t0 :: rest) s).2 = 1 := by
  have hemit : ((false : Bool) || decide (t0 - entry_lhb (s.get_last_heartbeat file) >
      s.config.heartbeat_frequency * 60)
      || !(s.last_heartbeat.lookup file).isSome) = true := by
    rw [hnew]
    simp
  obtain ⟨hsome, hlh, hcf⟩ := append_heartbeat_emit env t0 v false s file hf hig hemit
  have hl1 : (append_heartbeat env t0 v false s).state.last_heartbeat.lookup file =
      some [("last_activity_at", t0), ("last_heartbeat_at", t0)] := by
    rw [hlh]
    exact lookup_dict_insert_self _ _ _
  have hgaps2 : ∀ t ∈ rest,
      ¬(t - entry_lhb [("last_activity_at", t0), ("last_heartbeat_at", t0)] >
        s.config.heartbeat_frequency * 60) := by
    intro t ht
    have he : entry_lhb [("last_activity_at", t0), ("last_heartbeat_at", t0)] = t0 := rfl
    rw [he]
    exact not_lt.mpr (hgaps t ht)
  have hrest := run_activity_no_emit env v file
    [("last_activity_at", t0), ("last_heartbeat_at", t0)] s.config rest
    (append_heartbeat env t0 v false s).state hf hig hl1 hcf hgaps2
  simp only [run_activity, hsome, if_true]
  rw [hrest.1]

/-- Witness for C6 at a concrete input: events at 5, 50, 100 on a fresh
session (all within 120 s of the first event) emit exactly once. -/
theorem C6_single_heartbeat_witness :
    (run_activity env_ok view_py [5, 50, 100] (ready_state 1000)).2 = 1 :=
  C6_single_heartbeat_amended env_ok view_py "a.py" 5 [50, 100] (ready_state 1000)
    rfl rfl rfl (by decide)

/-- C6 counterexample: the original claim says gaps ≤ debounce suffice
for exactly one emission.  Concretely: non-write events at t = 0, 100,
200 (every gap is 100 ≤ 120) emit TWO heartbeats — at t = 200 the
elapsed time since the t = 0 heartbeat is 200 > 120, because the
suppressed t = 100 event did not reset the debounce clock. -/
theorem C6_counterexample :
    (run_activity env_no_tool view_py [0, 100, 200] (ready_state 0)).2 ≠ 1 ∧
    (run_activity env_no_tool view_py [0, 100, 200] (ready_state 0)).2 = 2 ∧
    ((100 : ℤ) - 0 ≤ default_config.heartbeat_frequency * 60) ∧
    ((200 : ℤ) - 100 ≤ default_config.heartbeat_frequency * 60) := by
  refine ⟨by decide, by decide, by decide, by decide⟩

/-- C8: when the delivery tool exits with the API-key-error code, the
user notice is shown and the session is de-initialized, after which
every editor event (load, activate, modify, text-command) leaves the
state unchanged and emits no heartbeat, until re-initialization. -/
theorem C8_api_key_deinit (env : SendEnv) (now : ℤ) (s : EztrackerState)
    (hb : Heartbeat) (rest : List Heartbeat)
    (hbuf : s.heartbeat_buffer = hb :: rest) (htool : env.tool_resolvable = true)
    (hdur : hb.duration ≠ 0) (hrun : env.run = RunResult.ok EXIT_CODE_API_KEY_ERROR) :
    (send_heartbeats env now s).dialog = some Dialog.invalidApiKey ∧
    (send_heartbeats env now s).state.initialized = false ∧
    ∀ (env2 : SendEnv) (t : ℤ) (e : Event),
      (handle_event env2 t e (send_heartbeats env now s).state).emitted = none ∧
      (handle_event env2 t e (send_heartbeats env now s).state).state =
        (send_heartbeats env now s).state := by
  have h1 : (send_heartbeats env now s).dialog = some Dialog.invalidApiKey ∧
      (send_heartbeats env now s).state.initialized = false := by
    unfold send_heartbeats
    rw [hbuf, hrun, htool]
    simp [hdur]
  refine ⟨h1.1, h1.2, ?_⟩
  intro env2 t e
  have h2 := handle_event_uninit env2 t e (send_heartbeats env now s).state h1.2
  exact ⟨h2.2, h2.1⟩

/-- Witness for C8 at a concrete input: one buffered nonzero-duration
heartbeat, resolvable tool exiting 104, then a load event at t = 99. -/
theorem C8_api_key_deinit_witness :
    (send_heartbeats env_api_key_error 50
        { ready_state 0 with heartbeat_buffer := [⟨"a.py", 10, false, 5, "python"⟩] }).dialog
      = some Dialog.invalidApiKey ∧
    (send_heartbeats env_api_key_error 50
        { ready_state 0 with heartbeat_buffer := [⟨"a.py", 10, false, 5, "python"⟩] }).state.initialized
      = false ∧
    (handle_event env_ok 99 (Event.load view_py)
        (send_heartbeats env_api_key_error 50
          { ready_state 0 with heartbeat_buffer := [⟨"a.py", 10, false, 5, "python"⟩] }).state).emitted
      = none := by
  have h := C8_api_key_deinit env_api_key_error 50
    { ready_state 0 with heartbeat_buffer := [⟨"a.py", 10, false, 5, "python"⟩] }
    ⟨"a.py", 10, false, 5, "python"⟩ [] rfl rfl (by decide) rfl
  exact ⟨h.1, h.2.1, (h.2.2 env_ok 99 (Event.load view_py)).1⟩

theorem get_last_heartbeat_set_self (s : EztrackerState) (file : String) (a h : ℤ) :
    (s.set_last_heartbeat file a h).get_last_heartbeat file =
      [("last_activity_at", a), ("last_heartbeat_at", h)] := by
  unfold EztrackerState.get_last_heartbeat
  have hproj : (s.set_last_heartbeat file a h).last_heartbeat =
      dict_insert s.last_heartbeat file
        [("last_activity_at", a), ("last_heartbeat_at", h)] := rfl
  rw [hproj, lookup_dict_insert_self]

theorem handle_event_modified (env : SendEnv) (now : ℤ) (s : EztrackerState)
    (v : View) (file : String) (hf : v.file_name = some file)
    (hig : is_ignored_file file = false) (hinit : s.initialized = true) :
    (handle_event env now (Event.modified v) s).state =
      s.set_last_heartbeat file now (entry_lhb (s.get_last_heartbeat file)) ∧
    (handle_event env now (Event.modified v) s).emitted = none := by
  unfold handle_event
  dsimp only
  rw [hinit, hf]
  dsimp only
  rw [hig]
  exact ⟨rfl, rfl⟩

/-- C9: a modify event on a non-ignored file in an initialized session
records activity only: the entity's `last_activity_at` becomes the event
time, its `last_heartbeat_at` is left at its previous effective value
(so the debounce window is not reset), and no heartbeat is emitted. -/
theorem C9_modify_activity_only (env : SendEnv) (now : ℤ) (s : EztrackerState)
    (v : View) (file : String) (hf : v.file_name = some file)
    (hig : is_ignored_file file = false) (hinit : s.initialized = true) :
    ((handle_event env now (Event.modified v) s).state.get_last_heartbeat file).lookup
        "last_activity_at" = some now ∧
    ((handle_event env now (Event.modified v) s).state.get_last_heartbeat file).lookup
        "last_heartbeat_at" = some (entry_lhb (s.get_last_heartbeat file)) ∧
    (handle_event env now (Event.modified v) s).emitted = none := by
  obtain ⟨hst, hem⟩ := handle_event_modified env now s v file hf hig hinit
  refine ⟨?_, ?_, hem⟩
  · rw [hst, get_last_heartbeat_set_self]
    exact lookup_pair_la _ _
  · rw [hst, get_last_heartbeat_set_self]
    exact lookup_pair_lh _ _

/-- Witness for C9 at a concrete input: modify of "a.py" at t = 10 on a
fresh initialized session. -/
theorem C9_modify_activity_only_witness :
    (((handle_event env_ok 10 (Event.modified view_py) (ready_state 0)).state.get_last_heartbeat
        "a.py").lookup "last_activity_at" = some 10) ∧
    (((handle_event env_ok 10 (Event.modified view_py) (ready_state 0)).state.get_last_heartbeat
        "a.py").lookup "last_heartbeat_at"
      = some (entry_lhb ((ready_state 0).get_last_heartbeat "a.py"))) ∧
    (handle_event env_ok 10 (Event.modified view_py) (ready_state 0)).emitted = none :=
  C9_modify_activity_only env_ok 10 (ready_state 0) view_py "a.py" rfl rfl rfl

end Eztracker
